import Mathlib

/-!
Verification development for the fastly-python client library
(`fastly/__init__.py` and `bin/fastly_upload_vcl.py`).

Python values occurring in request/response dictionaries are modelled by
`PyValue`; Python dictionaries by key-unique association lists (`Payload`),
with `pget` modelling `dict.get(key, None)`, `phas` modelling `key in dict`
and `pset` modelling `dict[key] = value`.
-/

namespace Fastly

/-- A Python value as it occurs in form-data dictionaries and decoded JSON
payloads: `None`, a `bool`, an `int`, or a `str`. -/
inductive PyValue where
  | none
  | bool (b : Bool)
  | int (n : Int)
  | str (s : String)
deriving DecidableEq, Repr

/-- A Python dictionary with string keys, modelled as an association list
(dictionaries never repeat a key; lookups take the first binding). -/
abbrev Payload := List (String × PyValue)

/-- Python `d.get(k, None)`: the value bound to `k`, or `None` if absent. -/
def pget : Payload → String → PyValue
  | [], _ => PyValue.none
  | (k2, v) :: rest, k => if k2 = k then v else pget rest k

/-- Python `k in d`. -/
def phas : Payload → String → Bool
  | [], _ => false
  | (k2, _) :: rest, k => if k2 = k then true else phas rest k

/-- Python `d[k] = v`: replace the (unique) binding of `k` in place when
present, append a new binding at the end otherwise. -/
def pset : Payload → String → PyValue → Payload
  | [], k, v => [(k, v)]
  | (k2, w) :: rest, k, v =>
      if k2 = k then (k, v) :: rest else (k2, w) :: pset rest k v

/-- Python `str(...)` (`"%s"` formatting) on a `PyValue`. -/
def pyStr : PyValue → String
  | PyValue.none => "None"
  | PyValue.bool b => if b then "True" else "False"
  | PyValue.int n => toString n
  | PyValue.str s => s

/-- The serialization step of `FastlyConnection._formdata`:
`str(int(value))` when the value is a `bool`, the value unchanged
otherwise. -/
def encodeFormValue : PyValue → PyValue
  | PyValue.bool b => PyValue.str (if b then "1" else "0")
  | v => v

/-- `FastlyConnection._formdata(fields, valid)` (fastly/__init__.py,
lines 1040-1047): keep exactly the entries whose key is in `valid` and
whose value is not `None`, serializing booleans to `"1"`/`"0"`.
(The final `urllib.urlencode` wire-encoding of the kept dictionary is not
modelled; the claims are about which keys and values are kept.) -/
def _formdata (fields : Payload) (valid : List String) : Payload :=
  fields.filterMap (fun kv =>
    if kv.1 ∈ valid ∧ kv.2 ≠ PyValue.none then some (kv.1, encodeFormValue kv.2)
    else Option.none)

/-- Errors a modelled operation can raise: Python `TypeError`,
`AttributeError`, or a `FastlyError` carrying its exception message. -/
inductive PyErr where
  | typeError
  | attributeError
  | fastlyError (msg : String)
deriving DecidableEq, Repr

/-- `FastlyConnection._status(status)` (fastly/__init__.py, lines
1030-1037): wraps the payload as a `FastlyStatus` and raises
`FastlyError("FastlyError: %s" % status.msg)` when the payload's `status`
attribute is not `"ok"`; returns `True` otherwise.  Attribute access on
`FastlyStatus` resolves to `self._data.get(name, None)`, i.e. `pget`. -/
def _status (p : Payload) : Except PyErr Bool :=
  if pget p "status" = PyValue.str "ok" then Except.ok true
  else Except.error (PyErr.fastlyError ("FastlyError: " ++ pyStr (pget p "msg")))

/-- A bound call of the method `_status` with an explicit argument list
(after Python has bound `self`): the method has exactly one parameter, so
any other number of arguments raises `TypeError` before the body runs. -/
def statusMethodCall (args : List Payload) : Except PyErr Bool :=
  match args with
  | [p] => _status p
  | _ => Except.error PyErr.typeError

/-- Stands for the `FastlyConnection` object that
`delete_domain` erroneously passes to `_status` as an extra positional
argument; only the argument count matters there (the call raises
`TypeError` on arity before the value is inspected). -/
def connSelf : Payload := []

/-- `FastlyConnection.delete_domain` result on a decoded response payload
(fastly/__init__.py, lines 430-433): the source reads
`return self._status(self, content)`, passing `self` as an extra
positional argument. -/
def delete_domain (content : Payload) : Except PyErr Bool :=
  statusMethodCall [connSelf, content]

/-- `FastlyConnection.delete_vcl` result on a decoded response payload
(fastly/__init__.py, lines 919-922): `return self._status(content)` —
the pattern every delete wrapper except `delete_domain` follows. -/
def delete_vcl (content : Payload) : Except PyErr Bool :=
  statusMethodCall [content]

/-- A service version as the upload workflow sees it: `number`, `locked`
and `active` attributes of a `FastlyVersion`. -/
structure Version where
  number : Nat
  locked : Bool
  active : Bool
deriving DecidableEq, Repr

/-- The clone-before-mutate step of `bin/fastly_upload_vcl.py`, lines
80-84 (the spec's `ensure_mutable`): when `latest.locked is True or
latest.active is True`, call `clone_version` (the server-side clone,
passed here as `clone`) and continue with its result; otherwise keep the
version.  The boolean records whether a clone request was issued. -/
def ensure_mutable (clone : Version → Version) (v : Version) : Bool × Version :=
  if v.locked = true ∨ v.active = true then (true, clone v) else (false, v)

/-- A concrete model of the server's clone operation satisfying the
documented contract (used by witnesses): the new version gets the next
number and both flags cleared. -/
def cloneModel (v : Version) : Version :=
  { number := v.number + 1, locked := false, active := false }

/-- The get-latest-version step of `bin/fastly_upload_vcl.py`, lines
77-78: `versions = client.list_versions(service.id); latest =
versions.pop()` — Python `list.pop()` returns the LAST element of the
list in the order the server returned it (`none` on an empty list, where
the script would raise `IndexError`). -/
def get_latest_version : List Version → Option Version
  | [] => Option.none
  | [v] => some v
  | _ :: rest => get_latest_version rest

/-- `FastlyRequestSetting.FIELDS` (fastly/__init__.py, lines 1389-1404). -/
def FastlyRequestSetting_FIELDS : List String :=
  ["service_id", "version", "name", "default_host", "force_miss", "force_ssl",
   "action", "bypass_busy_wait", "max_stale_age", "hash_keys", "xff",
   "timer_support", "geo_headers", "request_condition"]

/-- `FastlyHealthCheck.FIELDS` (fastly/__init__.py, lines 1353-1368). -/
def FastlyHealthCheck_FIELDS : List String :=
  ["service_id", "version", "name", "method", "host", "path", "http_version",
   "timeout", "check_interval", "expected_response", "window", "threshold",
   "initial", "comment"]

/-- The request body built by `FastlyConnection.update_request_setting`
(fastly/__init__.py, lines 614-618): the source reads
`body = self._formdata(kwargs, FastlyHealthCheck.FIELDS)` — it filters the
caller's fields against the health-check field set, not
`FastlyRequestSetting.FIELDS`. -/
def update_request_setting_body (kwargs : Payload) : Payload :=
  _formdata kwargs FastlyHealthCheck_FIELDS

/-- The request body built by `FastlyConnection.update_healthcheck`
(fastly/__init__.py, lines 543-547):
`body = self._formdata(kwargs, FastlyHealthCheck.FIELDS)`. -/
def update_healthcheck_body (kwargs : Payload) : Payload :=
  _formdata kwargs FastlyHealthCheck_FIELDS

/-- The authentication-relevant state of a `FastlyConnection`
(fastly/__init__.py, lines 103-106): `_api_key`, `_session` (initially
`None`, set by `_check` from a matched `set-cookie` response header), and
`_fully_authed` (initially `False`). -/
structure ConnState where
  api_key : String
  session : PyValue
  fully_authed : Bool

/-- The header dictionary built by `FastlyConnection._fetch`
(fastly/__init__.py, lines 1050-1064): start from the caller's `headers`,
then set `Cookie` to the session when `_fully_authed` and `X-Fastly-Key`
to the api key otherwise, then `Content-Accept`, then default the
`Content-Type` for `POST`/`PUT` bodies. -/
def fetch_headers (c : ConnState) (method : String) (headers : Payload) : Payload :=
  let hdrs := headers
  let hdrs := if c.fully_authed then pset hdrs "Cookie" c.session
              else pset hdrs "X-Fastly-Key" (PyValue.str c.api_key)
  let hdrs := pset hdrs "Content-Accept" (PyValue.str "application/json")
  if phas hdrs "Content-Type" = false ∧ (method = "POST" ∨ method = "PUT")
  then pset hdrs "Content-Type" (PyValue.str "application/x-www-form-urlencoded")
  else hdrs

/-- The connection-state effect of `FastlyConnection.login`
(fastly/__init__.py, lines 113-120): after the `/login` fetch returns,
`self._fully_authed = True`. -/
def login_update (c : ConnState) : ConnState :=
  { c with fully_authed := true }

/-- The error message stored when `FastlyError` is constructed from a
`FastlyStatus` (fastly/__init__.py, lines 1163-1168):
`"FastlyError: %s (%s)" % (status.msg, status.detail)`. -/
def fastlyErrorMessage (p : Payload) : String :=
  "FastlyError: " ++ pyStr (pget p "msg") ++ " (" ++ pyStr (pget p "detail") ++ ")"

/-- The error raised by `FastlyConnection._check` for a non-200 response
whose body decoded to a JSON object (fastly/__init__.py, lines 1089-1096):
`payload["status"] = "error"; status = FastlyStatus(self, payload);
raise FastlyError(status)`. -/
def check_error (p : Payload) : PyErr :=
  PyErr.fastlyError (fastlyErrorMessage (pset p "status" (PyValue.str "error")))

/-- `FastlyService.FIELDS` (fastly/__init__.py, lines 1423-1431): the
source list reads `..., "active_version", "versions" "comment"` — the two
adjacent string literals are concatenated by Python into the single entry
`"versionscomment"`. -/
def FastlyService_FIELDS : List String :=
  ["id", "name", "customer_id", "publish_key", "active_version",
   String.append "versions" "comment"]

/-- `FastlyObject.__getattr__` (fastly/__init__.py, lines 1139-1143),
specialized by a class's `FIELDS` list: return
`self._data.get(name, None)` when `name` is in `FIELDS`, raise
`AttributeError` otherwise. -/
def object_getattr (FIELDS : List String) (data : Payload) (name : String) :
    Except PyErr PyValue :=
  if name ∈ FIELDS then Except.ok (pget data name)
  else Except.error PyErr.attributeError

/-- The `active_version` property getter of `FastlyService`
(fastly/__init__.py, lines 1433-1438): its first step reads
`self.versions`; since `"versions"` is not an entry of
`FastlyService.FIELDS` (the list holds `"versionscomment"` instead), that
read always raises `AttributeError`, so the loop over
`self.versions.values()` that follows is unreachable; the unreachable
tail is rendered as the getter's fall-through `return None`. -/
def service_active_version_getter (data : Payload) : Except PyErr PyValue :=
  match object_getattr FastlyService_FIELDS data "versions" with
  | Except.error e => Except.error e
  | Except.ok _ => Except.ok PyValue.none

/-- Python attribute access on a `FastlyService` instance: the class
defines the single property `active_version`, whose getter is tried
first; in Python, a property getter that raises `AttributeError` makes
attribute lookup fall back to `__getattr__` with the same name.  Every
other name goes directly to `FastlyObject.__getattr__` (the instance
dictionary holds only `_conn` and `_data`). -/
def service_getattribute (data : Payload) (name : String) : Except PyErr PyValue :=
  if name = "active_version" then
    match service_active_version_getter data with
    | Except.error PyErr.attributeError =>
        object_getattr FastlyService_FIELDS data name
    | r => r
  else object_getattr FastlyService_FIELDS data name

/-- Whether `needle` occurs at the start of `hay` (on character lists). -/
def startsWithL : List Char → List Char → Bool
  | [], _ => true
  | _ :: _, [] => false
  | a :: as, b :: bs => if a = b then startsWithL as bs else false

/-- Whether `needle` occurs contiguously anywhere in `hay`. -/
def occursIn (needle : List Char) : List Char → Bool
  | [] => needle.isEmpty
  | b :: bs => startsWithL needle (b :: bs) || occursIn needle bs

/-- Whether the string `needle` occurs contiguously in `hay`; used to
state that an error message preserves a server-provided field. -/
def strContains (hay needle : String) : Bool :=
  occursIn needle.data hay.data

/-! Helper lemmas on the dictionary model. -/

theorem pget_of_phas_false {d : Payload} {k : String} (h : phas d k = false) :
    pget d k = PyValue.none := by
  induction d with
  | nil => rfl
  | cons kv rest ih =>
    obtain ⟨k2, v⟩ := kv
    by_cases h1 : k2 = k
    · simp [phas, h1] at h
    · simp [phas, h1] at h
      simp [pget, h1, ih h]

theorem pget_pset_self (d : Payload) (k : String) (v : PyValue) :
    pget (pset d k v) k = v := by
  induction d with
  | nil => simp [pset, pget]
  | cons kv rest ih =>
    obtain ⟨k2, w⟩ := kv
    by_cases h1 : k2 = k
    · simp [pset, h1, pget]
    · simp [pset, h1, pget, ih]

theorem pget_pset_ne (d : Payload) {k k2 : String} (v : PyValue) (h : k2 ≠ k) :
    pget (pset d k2 v) k = pget d k := by
  induction d with
  | nil => simp [pset, pget, h]
  | cons kv rest ih =>
    obtain ⟨k1, w⟩ := kv
    by_cases h1 : k1 = k2
    · subst h1
      simp [pset, pget, h]
    · by_cases h2 : k1 = k
      · simp [pset, pget, h1, h2, Ne.symm h]
      · simp [pset, pget, h1, h2, ih]

theorem phas_pset_self (d : Payload) (k : String) (v : PyValue) :
    phas (pset d k v) k = true := by
  induction d with
  | nil => simp [pset, phas]
  | cons kv rest ih =>
    obtain ⟨k2, w⟩ := kv
    by_cases h1 : k2 = k
    · simp [pset, h1, phas]
    · simp [pset, h1, phas, ih]

theorem phas_pset_ne (d : Payload) {k k2 : String} (v : PyValue) (h : k2 ≠ k) :
    phas (pset d k2 v) k = phas d k := by
  induction d with
  | nil => simp [pset, phas, h]
  | cons kv rest ih =>
    obtain ⟨k1, w⟩ := kv
    by_cases h1 : k1 = k2
    · subst h1
      simp [pset, phas, h]
    · by_cases h2 : k1 = k
      · simp [pset, phas, h1, h2, Ne.symm h]
      · simp [pset, phas, h1, h2, ih]

/-! Helper lemmas on the last element of a list of versions. -/

theorem get_latest_version_mem :
    ∀ {l : List Version} {v : Version}, get_latest_version l = some v → v ∈ l := by
  intro l
  induction l with
  | nil => intro v h; simp [get_latest_version] at h
  | cons x xs ih =>
    intro v h
    cases xs with
    | nil =>
      simp [get_latest_version] at h
      simp [h]
    | cons y ys =>
      have h2 : get_latest_version (y :: ys) = some v := h
      exact List.mem_cons_of_mem x (ih h2)

/-! Helper lemmas on string containment. -/

theorem startsWithL_append (l t : List Char) : startsWithL l (l ++ t) = true := by
  induction l with
  | nil => rfl
  | cons a as ih => simp [startsWithL, ih]

theorem occursIn_append (s n t : List Char) : occursIn n (s ++ (n ++ t)) = true := by
  induction s with
  | nil =>
    cases n with
    | nil =>
      cases t with
      | nil => rfl
      | cons b bs => simp [occursIn, startsWithL]
    | cons a as =>
      have h := startsWithL_append (a :: as) t
      rw [List.cons_append] at h
      simp only [List.nil_append, List.cons_append, occursIn]
      simp [h]
  | cons c cs ih =>
    simp only [List.cons_append, occursIn]
    simp [ih]

theorem strContains_of_decomp {hay needle : String}
    (h : ∃ s t : String, hay = s ++ (needle ++ t)) :
    strContains hay needle = true := by
  obtain ⟨s, t, rfl⟩ := h
  unfold strContains
  rw [String.data_append, String.data_append]
  exact occursIn_append s.data needle.data t.data

/-! Claim theorems. -/

/-- C1: for every version whose `locked` or `active` flag is true, the
clone-before-mutate step issues a clone and returns the cloned version,
which — by the server's documented clone contract, taken as the
hypothesis `hclone` — has a strictly greater `number` and both flags
false; for every version with both flags false, no clone is issued and
the version is returned unchanged. -/
theorem ensure_mutable_clone_contract (clone : Version → Version)
    (hclone : ∀ w : Version,
      w.number < (clone w).number ∧ (clone w).locked = false ∧ (clone w).active = false)
    (v : Version) :
    ((v.locked = true ∨ v.active = true) →
      ensure_mutable clone v = (true, clone v) ∧
      v.number < (ensure_mutable clone v).2.number ∧
      (ensure_mutable clone v).2.locked = false ∧
      (ensure_mutable clone v).2.active = false) ∧
    (v.locked = false → v.active = false →
      ensure_mutable clone v = (false, v)) := by
  constructor
  · intro h
    have he : ensure_mutable clone v = (true, clone v) := by
      unfold ensure_mutable
      rw [if_pos h]
    rw [he]
    exact ⟨rfl, (hclone v).1, (hclone v).2.1, (hclone v).2.2⟩
  · intro h1 h2
    simp [ensure_mutable, h1, h2]

/-- Witness for C1: on an active version numbered 7 a clone is issued and
yields version 8 with both flags cleared; on a draft version nothing
happens. -/
theorem ensure_mutable_clone_contract_witness :
    ensure_mutable cloneModel ⟨7, true, false⟩ = (true, ⟨8, false, false⟩) ∧
    ensure_mutable cloneModel ⟨7, false, false⟩ = (false, ⟨7, false, false⟩) := by
  have hclone : ∀ w : Version, w.number < (cloneModel w).number ∧
      (cloneModel w).locked = false ∧ (cloneModel w).active = false :=
    fun w => ⟨Nat.lt_succ_self _, rfl, rfl⟩
  constructor
  · have h := (ensure_mutable_clone_contract cloneModel hclone ⟨7, true, false⟩).1
      (Or.inl rfl)
    simpa [cloneModel] using h.1
  · exact (ensure_mutable_clone_contract cloneModel hclone ⟨7, false, false⟩).2 rfl rfl

/-- C2: the clone-before-mutate step is idempotent on a draft version:
with both flags false it returns the same version and issues no clone,
so applying it twice yields the same version both times. -/
theorem ensure_mutable_idempotent_on_draft (clone : Version → Version) (v : Version)
    (h1 : v.locked = false) (h2 : v.active = false) :
    ensure_mutable clone v = (false, v) ∧
    ensure_mutable clone (ensure_mutable clone v).2 = (false, v) := by
  have hv : ensure_mutable clone v = (false, v) := by simp [ensure_mutable, h1, h2]
  refine ⟨hv, ?_⟩
  rw [hv]
  simp [ensure_mutable, h1, h2]

/-- Witness for C2 on the draft version numbered 5. -/
theorem ensure_mutable_idempotent_on_draft_witness :
    ensure_mutable cloneModel ⟨5, false, false⟩ = (false, ⟨5, false, false⟩) ∧
    ensure_mutable cloneModel (ensure_mutable cloneModel ⟨5, false, false⟩).2
      = (false, ⟨5, false, false⟩) :=
  ensure_mutable_idempotent_on_draft cloneModel ⟨5, false, false⟩ rfl rfl

/-- C3 counterexample: when the server lists version 2 before version 1,
the get-latest-version step (`versions.pop()`, the LAST element) returns
the version numbered 1 although the maximum number in the list is 2 —
the step is NOT independent of the server's listing order. -/
theorem get_latest_version_order_counterexample :
    get_latest_version [⟨2, false, false⟩, ⟨1, false, false⟩]
      = some ⟨1, false, false⟩ ∧
    (⟨2, false, false⟩ : Version)
      ∈ [(⟨2, false, false⟩ : Version), ⟨1, false, false⟩] ∧
    ¬ ((2 : Nat) ≤ 1) := by
  decide

/-- C3 amended: the get-latest-version step returns the last version of
the server's list; whenever the server lists versions in ascending
`number` order, that last version has the maximum `number`. -/
theorem get_latest_version_max_of_sorted (l : List Version)
    (hs : List.Pairwise (fun a b => a.number ≤ b.number) l) (hne : l ≠ []) :
    ∃ v, get_latest_version l = some v ∧ ∀ w ∈ l, w.number ≤ v.number := by
  induction l with
  | nil => exact absurd rfl hne
  | cons x xs ih =>
    cases xs with
    | nil =>
      refine ⟨x, rfl, ?_⟩
      intro w hw
      have hwx : w = x := by simpa using hw
      simp [hwx]
    | cons y ys =>
      obtain ⟨hx, hxs⟩ := List.pairwise_cons.mp hs
      obtain ⟨v, hv, hall⟩ := ih hxs (by simp)
      refine ⟨v, hv, ?_⟩
      intro w hw
      rcases List.mem_cons.mp hw with hwx | hw2
      · subst hwx
        exact hx v (get_latest_version_mem hv)
      · exact hall w hw2

/-- Witness for the amended C3 on an ascending two-version list. -/
theorem get_latest_version_max_of_sorted_witness :
    ∃ v, get_latest_version [⟨1, true, true⟩, ⟨2, false, false⟩] = some v ∧
      ∀ w ∈ [(⟨1, true, true⟩ : Version), ⟨2, false, false⟩],
        w.number ≤ v.number :=
  get_latest_version_max_of_sorted
    [⟨1, true, true⟩, ⟨2, false, false⟩] (by decide) (by decide)

/-- C4: the form-data encoder keeps exactly the keys that are in the
allow-list and bound to a non-`None` value; every boolean value is
serialized to the string `"1"` or `"0"`, and no boolean survives
unserialized. -/
theorem formdata_exact_fields (fields : Payload) (valid : List String)
    (_hnd : (fields.map Prod.fst).Nodup) :
    (∀ k : String, (∃ v, (k, v) ∈ _formdata fields valid) ↔
       (k ∈ valid ∧ ∃ w, (k, w) ∈ fields ∧ w ≠ PyValue.none)) ∧
    (∀ k b, (k, PyValue.bool b) ∈ fields → k ∈ valid →
       (k, PyValue.str (if b then "1" else "0")) ∈ _formdata fields valid) ∧
    (∀ k v, (k, v) ∈ _formdata fields valid → ∀ b, v ≠ PyValue.bool b) := by
  refine ⟨?_, ?_, ?_⟩
  · intro k
    constructor
    · rintro ⟨v, hm⟩
      rcases List.mem_filterMap.mp hm with ⟨⟨k2, w⟩, hmem, heq⟩
      dsimp only at heq
      split at heq
      · rename_i hcond
        simp only [Option.some.injEq, Prod.mk.injEq] at heq
        obtain ⟨hk2, -⟩ := heq
        subst hk2
        exact ⟨hcond.1, w, hmem, hcond.2⟩
      · simp at heq
    · rintro ⟨hk, w, hmem, hw⟩
      refine ⟨encodeFormValue w, ?_⟩
      unfold _formdata
      exact List.mem_filterMap.mpr ⟨(k, w), hmem, by simp [hk, hw]⟩
  · intro k b hmem hk
    unfold _formdata
    refine List.mem_filterMap.mpr ⟨(k, PyValue.bool b), hmem, ?_⟩
    simp [hk, encodeFormValue]
  · intro k v hm b
    rcases List.mem_filterMap.mp hm with ⟨⟨k2, w⟩, hmem, heq⟩
    dsimp only at heq
    split at heq
    · rename_i hcond
      simp only [Option.some.injEq, Prod.mk.injEq] at heq
      obtain ⟨-, hv⟩ := heq
      subst hv
      cases w <;> simp [encodeFormValue]
    · simp at heq

/-- Witness for C4: with field dictionary `{a: True, b: None}` and
allow-list `[a, b]` the encoder keeps exactly `a`, serialized to `"1"`. -/
theorem formdata_exact_fields_witness :
    ("a", PyValue.str "1")
      ∈ _formdata [("a", PyValue.bool true), ("b", PyValue.none)] ["a", "b"] :=
  (formdata_exact_fields [("a", PyValue.bool true), ("b", PyValue.none)]
    ["a", "b"] (by decide)).2.1 "a" true (by decide) (by decide)

/-- C5 (code bug): `update_request_setting` filters the caller's fields
against `FastlyHealthCheck.FIELDS` instead of
`FastlyRequestSetting.FIELDS`, so the supplied request-settings field
`force_ssl` is dropped from the body, while the health-check-only field
`window` would be transmitted. -/
theorem update_request_setting_wrong_field_set :
    "force_ssl" ∈ FastlyRequestSetting_FIELDS ∧
    update_request_setting_body [("force_ssl", PyValue.bool true)] = [] ∧
    "window" ∉ FastlyRequestSetting_FIELDS ∧
    update_request_setting_body [("window", PyValue.int 5)]
      = [("window", PyValue.int 5)] := by
  decide

/-- C6 counterexample: on the `_status` path the error raised for a
payload with `status = "error"`, `msg = "boom"`, `detail = "thedetail"`
carries the message `"FastlyError: boom"` — the server's `detail` string
does not occur in it, so `_status` does not preserve `detail`. -/
theorem status_error_drops_detail :
    _status [("status", PyValue.str "error"), ("msg", PyValue.str "boom"),
             ("detail", PyValue.str "thedetail")]
      = Except.error (PyErr.fastlyError "FastlyError: boom") ∧
    strContains "FastlyError: boom" "thedetail" = false := by
  refine ⟨rfl, ?_⟩
  decide

/-- C6 amended: the `_check` HTTP-error path preserves both the
server-provided `msg` and `detail` strings unmodified in the raised
error's message; the `_status` path preserves `msg` but omits `detail`. -/
theorem error_messages_preserve_server_fields (p : Payload) (m d : String)
    (hm : pget p "msg" = PyValue.str m) (hd : pget p "detail" = PyValue.str d) :
    (∃ e, check_error p = PyErr.fastlyError e ∧
       strContains e m = true ∧ strContains e d = true) ∧
    (pget p "status" ≠ PyValue.str "ok" →
       ∃ e, _status p = Except.error (PyErr.fastlyError e) ∧
         strContains e m = true) := by
  have hmsg2 : pget (pset p "status" (PyValue.str "error")) "msg"
      = PyValue.str m := by
    rw [pget_pset_ne p _ (by decide)]
    exact hm
  have hdet2 : pget (pset p "status" (PyValue.str "error")) "detail"
      = PyValue.str d := by
    rw [pget_pset_ne p _ (by decide)]
    exact hd
  have hmessage : fastlyErrorMessage (pset p "status" (PyValue.str "error"))
      = "FastlyError: " ++ m ++ " (" ++ d ++ ")" := by
    rw [fastlyErrorMessage, hmsg2, hdet2]
    rfl
  constructor
  · refine ⟨fastlyErrorMessage (pset p "status" (PyValue.str "error")),
      rfl, ?_, ?_⟩
    · rw [hmessage]
      apply strContains_of_decomp
      exact ⟨"FastlyError: ", " (" ++ d ++ ")", by simp [String.append_assoc]⟩
    · rw [hmessage]
      apply strContains_of_decomp
      exact ⟨"FastlyError: " ++ m ++ " (", ")", by simp [String.append_assoc]⟩
  · intro hne
    refine ⟨"FastlyError: " ++ pyStr (pget p "msg"), ?_, ?_⟩
    · unfold _status
      rw [if_neg hne]
    · apply strContains_of_decomp
      refine ⟨"FastlyError: ", "", ?_⟩
      rw [hm]
      simp [pyStr]

/-- Witness for the amended C6 on a payload with `msg = "boom"` and
`detail = "thedetail"`. -/
theorem error_messages_preserve_server_fields_witness :
    ∃ e, check_error [("msg", PyValue.str "boom"),
        ("detail", PyValue.str "thedetail")] = PyErr.fastlyError e ∧
      strContains e "boom" = true ∧ strContains e "thedetail" = true :=
  (error_messages_preserve_server_fields
    [("msg", PyValue.str "boom"), ("detail", PyValue.str "thedetail")]
    "boom" "thedetail" rfl rfl).1

/-- C7: `_status` raises exactly when the payload's `status` attribute is
not the string `"ok"` (a missing `status` key reads as `None`, which also
raises), and returns `True` when it is `"ok"`. -/
theorem status_raises_iff_not_ok (p : Payload) :
    ((∃ e, _status p = Except.error e) ↔ pget p "status" ≠ PyValue.str "ok") ∧
    (pget p "status" = PyValue.str "ok" → _status p = Except.ok true) := by
  constructor
  · constructor
    · rintro ⟨e, he⟩ hok
      simp [_status, hok] at he
    · intro hne
      exact ⟨PyErr.fastlyError ("FastlyError: " ++ pyStr (pget p "msg")),
        by unfold _status; rw [if_neg hne]⟩
  · intro hok
    simp [_status, hok]

/-- Witness for C7: a payload whose `status` is `"ok"` yields `True`. -/
theorem status_raises_iff_not_ok_witness :
    _status [("status", PyValue.str "ok")] = Except.ok true :=
  (status_raises_iff_not_ok [("status", PyValue.str "ok")]).2 rfl

/-- C8 (code bug): on a response whose payload reports `status = "ok"`,
`delete_domain` raises `TypeError` (the source calls
`self._status(self, content)`, passing `self` as an extra positional
argument) instead of returning `True`; the sibling `delete_vcl`, which
calls `self._status(content)`, returns `True` on `"ok"` and raises the
typed `FastlyError` otherwise. -/
theorem delete_domain_arity_bug :
    delete_domain [("status", PyValue.str "ok")]
      = Except.error PyErr.typeError ∧
    delete_vcl [("status", PyValue.str "ok")] = Except.ok true ∧
    delete_vcl [("status", PyValue.str "err"), ("msg", PyValue.str "boom")]
      = Except.error (PyErr.fastlyError "FastlyError: boom") :=
  ⟨rfl, rfl, rfl⟩

/-- C9: when the caller supplies no `Cookie` or `X-Fastly-Key` header of
its own (no call site in the library does), a request built before login
carries the static api key in `X-Fastly-Key` and no `Cookie` header,
and a request built after `login` set `_fully_authed` carries the
session in `Cookie` and no `X-Fastly-Key` header; `login` sets
`_fully_authed`. -/
theorem fetch_headers_auth (c : ConnState) (method : String) (headers : Payload)
    (hc : phas headers "Cookie" = false)
    (hk : phas headers "X-Fastly-Key" = false) :
    (c.fully_authed = false →
      pget (fetch_headers c method headers) "X-Fastly-Key"
        = PyValue.str c.api_key ∧
      phas (fetch_headers c method headers) "Cookie" = false) ∧
    (c.fully_authed = true →
      pget (fetch_headers c method headers) "Cookie" = c.session ∧
      phas (fetch_headers c method headers) "X-Fastly-Key" = false) ∧
    (login_update c).fully_authed = true := by
  refine ⟨?_, ?_, rfl⟩
  · intro hf
    unfold fetch_headers
    rw [hf]
    simp only [Bool.false_eq_true, if_false]
    constructor
    · split
      · rw [pget_pset_ne _ _ (by decide), pget_pset_ne _ _ (by decide),
            pget_pset_self]
      · rw [pget_pset_ne _ _ (by decide), pget_pset_self]
    · split
      · rw [phas_pset_ne _ _ (by decide), phas_pset_ne _ _ (by decide),
            phas_pset_ne _ _ (by decide)]
        exact hc
      · rw [phas_pset_ne _ _ (by decide), phas_pset_ne _ _ (by decide)]
        exact hc
  · intro hf
    unfold fetch_headers
    rw [hf]
    simp only [if_true]
    constructor
    · split
      · rw [pget_pset_ne _ _ (by decide), pget_pset_ne _ _ (by decide),
            pget_pset_self]
      · rw [pget_pset_ne _ _ (by decide), pget_pset_self]
    · split
      · rw [phas_pset_ne _ _ (by decide), phas_pset_ne _ _ (by decide),
            phas_pset_ne _ _ (by decide)]
        exact hk
      · rw [phas_pset_ne _ _ (by decide), phas_pset_ne _ _ (by decide)]
        exact hk

/-- Witness for C9: a fresh connection (api key `"KEY"`, not authed)
sends the key header and no cookie; after the login state update the
same connection sends the session cookie and no key header. -/
theorem fetch_headers_auth_witness :
    (pget (fetch_headers ⟨"KEY", PyValue.none, false⟩ "GET" []) "X-Fastly-Key"
        = PyValue.str "KEY" ∧
      phas (fetch_headers ⟨"KEY", PyValue.none, false⟩ "GET" []) "Cookie"
        = false) ∧
    (pget (fetch_headers ⟨"KEY", PyValue.str "fastly.session=abc", true⟩
          "GET" []) "Cookie" = PyValue.str "fastly.session=abc" ∧
      phas (fetch_headers ⟨"KEY", PyValue.str "fastly.session=abc", true⟩
          "GET" []) "X-Fastly-Key" = false) :=
  ⟨(fetch_headers_auth ⟨"KEY", PyValue.none, false⟩ "GET" [] rfl rfl).1 rfl,
   (fetch_headers_auth ⟨"KEY", PyValue.str "fastly.session=abc", true⟩
     "GET" [] rfl rfl).2.1 rfl⟩

/-- C10 counterexample: on a `FastlyService` whose response data binds
`active_version` to the string `"5"`, attribute access to
`active_version` does not raise: the property getter's internal
`AttributeError` (from reading the missing `versions` field) makes Python
fall back to `__getattr__`, and `"active_version"` IS in
`FastlyService.FIELDS`, so the raw data value is returned. -/
theorem active_version_fallback_counterexample :
    service_getattribute [("active_version", PyValue.str "5")] "active_version"
      = Except.ok (PyValue.str "5") := rfl

/-- C10 amended: attribute access to `versions` and `comment` on a
`FastlyService` always raises `AttributeError` (the `FIELDS` list holds
the single concatenated entry `"versionscomment"`), and the
`active_version` property getter always raises `AttributeError`
internally — but that makes attribute access fall back to `__getattr__`,
which returns the raw `active_version` entry of the response data
(`None` when absent) instead of propagating the error. -/
theorem service_attribute_access (data : Payload) :
    service_getattribute data "versions" = Except.error PyErr.attributeError ∧
    service_getattribute data "comment" = Except.error PyErr.attributeError ∧
    service_active_version_getter data = Except.error PyErr.attributeError ∧
    service_getattribute data "active_version"
      = Except.ok (pget data "active_version") := by
  have hv : ("versions" : String) ∉ FastlyService_FIELDS := by decide
  have hcm : ("comment" : String) ∉ FastlyService_FIELDS := by decide
  have hav : ("active_version" : String) ∈ FastlyService_FIELDS := by decide
  have hgetter : service_active_version_getter data
      = Except.error PyErr.attributeError := by
    unfold service_active_version_getter object_getattr
    rw [if_neg hv]
  refine ⟨?_, ?_, hgetter, ?_⟩
  · unfold service_getattribute
    rw [if_neg (by decide : ("versions" : String) ≠ "active_version")]
    unfold object_getattr
    rw [if_neg hv]
  · unfold service_getattribute
    rw [if_neg (by decide : ("comment" : String) ≠ "active_version")]
    unfold object_getattr
    rw [if_neg hcm]
  · unfold service_getattribute
    rw [if_pos rfl, hgetter]
    unfold object_getattr
    rw [if_pos hav]

end Fastly
